import Mathlib

/-
Verification development for the voice-agent client.

The embedding below translates the turn-taking, playback and transport logic of
the client components:
- ChainedVAD      : the local-VAD chained voice agent (silence-timer turn machine)
- MicVadModel     : the score-level detector driven by the external MicVAD library
- RealtimeWS      : the WebSocket realtime agent (playback queue, barge-in, PCM16)
- RealtimeVAD     : the HTTP realtime-VAD agent (chunk pipeline, send, resources)
-/

namespace ChainedVAD

/-- Configuration of the local VAD agent, values taken verbatim from the
VAD_CONFIG object of the component. -/
structure VadConfig where
  positiveSpeechThreshold : ℚ
  negativeSpeechThreshold : ℚ
  preSpeechPadFrames : ℕ
  redemptionFrames : ℕ
  frameSamples : ℕ
  silenceThreshold : ℕ
  minSpeechDuration : ℕ
  maxRecordingTime : ℕ

/-- The concrete configuration of the component. -/
def VAD_CONFIG : VadConfig :=
  { positiveSpeechThreshold := 8/10
  , negativeSpeechThreshold := 6/10
  , preSpeechPadFrames := 5
  , redemptionFrames := 5
  , frameSamples := 1536
  , silenceThreshold := 2500
  , minSpeechDuration := 500
  , maxRecordingTime := 45000 }

/-- Mutable state of the chained agent relevant to turn detection: speaking flag,
recorder state, the pending silence-timer deadline, the recorded speech-start
time, and counters for timer commits and finalized turns. -/
structure AgentState where
  isSpeaking : Bool
  recording : Bool
  silenceTimer : Option ℕ
  speechStartTime : Option ℕ
  stopInvocations : ℕ
  finalizedTurns : ℕ
deriving DecidableEq

/-- State before any event: nothing recording, no timers, no turns. -/
def initialState : AgentState :=
  { isSpeaking := false, recording := false, silenceTimer := none
  , speechStartTime := none, stopInvocations := 0, finalizedTurns := 0 }

/-- stopRecordingAndProcess: clears the silence timer, stops an active recording
(whose onstop handler runs processAudioChain and finalizes one turn), and resets
the speaking flag.  When no recording is active, nothing is processed. -/
def stopRecordingAndProcess (s : AgentState) : AgentState :=
  if s.recording then
    { s with silenceTimer := none, recording := false, isSpeaking := false
           , stopInvocations := s.stopInvocations + 1
           , finalizedTurns := s.finalizedTurns + 1 }
  else
    { s with silenceTimer := none, isSpeaking := false
           , stopInvocations := s.stopInvocations + 1 }

/-- handleSpeechStart: records the speech-start time, clears any pending silence
timer, marks the user as speaking and makes sure recording is running. -/
def handleSpeechStart (now : ℕ) (s : AgentState) : AgentState :=
  { s with speechStartTime := some now
         , silenceTimer := none
         , isSpeaking := true
         , recording := true }

/-- Speech duration as computed in handleSpeechEnd: now minus the recorded
start time, zero when no start time is set. -/
def speechDurationAt (now : ℕ) (s : AgentState) : ℕ :=
  match s.speechStartTime with
  | some t => now - t
  | none => 0

/-- handleSpeechEnd: clears the speaking flag; a segment shorter than
minSpeechDuration is ignored, otherwise the silence timer is armed to fire
after silenceThreshold milliseconds. -/
def handleSpeechEnd (now : ℕ) (s : AgentState) : AgentState :=
  if speechDurationAt now s < VAD_CONFIG.minSpeechDuration then
    { s with isSpeaking := false }
  else
    { s with isSpeaking := false
           , silenceTimer := some (now + VAD_CONFIG.silenceThreshold) }

/-- handleVADMisfire: the handler only logs; it changes no state at all. -/
def handleVADMisfire (s : AgentState) : AgentState := s

/-- Timestamped detector events delivered to the agent by the VAD callbacks. -/
inductive VadEvent where
  | speechStart (t : ℕ)
  | speechEnd (t : ℕ)
  | misfire (t : ℕ)

/-- Advance the clock to time t: a pending silence timer whose deadline has
passed fires stopRecordingAndProcess. -/
def fireDue (t : ℕ) (s : AgentState) : AgentState :=
  match s.silenceTimer with
  | some d => if d ≤ t then stopRecordingAndProcess s else s
  | none => s

/-- Process one timestamped event: first let a due timer fire, then run the
corresponding handler. -/
def stepEvent (s : AgentState) : VadEvent → AgentState
  | .speechStart t => handleSpeechStart t (fireDue t s)
  | .speechEnd t => handleSpeechEnd t (fireDue t s)
  | .misfire t => handleVADMisfire (fireDue t s)

/-- Run a trace of events from the idle state and then let time advance to the
horizon, firing any still-pending timer that comes due. -/
def runTrace (evs : List VadEvent) (horizon : ℕ) : AgentState :=
  fireDue horizon (evs.foldl stepEvent initialState)

end ChainedVAD

namespace ChainedVAD

/-- Claim C2: with silenceThreshold configured to 2500 ms and minSpeechDuration
to 500 ms, a single 700 ms speech burst followed by 3000 ms of uninterrupted
silence produces exactly one finalized ConversationTurn and exactly one
invocation of the stop-recording-and-process path. -/
theorem burst700_then_silence_one_turn :
    VAD_CONFIG.silenceThreshold = 2500 ∧ VAD_CONFIG.minSpeechDuration = 500 ∧
    (runTrace [.speechStart 0, .speechEnd 700] 3700).finalizedTurns = 1 ∧
    (runTrace [.speechStart 0, .speechEnd 700] 3700).stopInvocations = 1 := by
  refine ⟨rfl, rfl, ?_, ?_⟩ <;> decide

/-- Claim C3: a confirmed speech segment shorter than minSpeechDuration is
discarded: handleSpeechEnd neither arms the silence timer nor changes the
finalized-turn count nor the recorder state, and a 300 ms burst yields zero
finalized turns. -/
theorem short_segment_discarded (now : ℕ) (s : AgentState)
    (h : speechDurationAt now s < VAD_CONFIG.minSpeechDuration) :
    (handleSpeechEnd now s).silenceTimer = s.silenceTimer ∧
    (handleSpeechEnd now s).finalizedTurns = s.finalizedTurns ∧
    (handleSpeechEnd now s).stopInvocations = s.stopInvocations ∧
    (handleSpeechEnd now s).recording = s.recording ∧
    (runTrace [.speechStart 0, .speechEnd 300] 100000).finalizedTurns = 0 := by
  refine ⟨?_, ?_, ?_, ?_, by decide⟩ <;> simp [handleSpeechEnd, h]

/-- Claim C3 witness: the short-segment property applied to a concrete 300 ms
segment that started at time 0. -/
theorem short_segment_discarded_witness :
    (handleSpeechEnd 300 (handleSpeechStart 0 initialState)).silenceTimer =
      (handleSpeechStart 0 initialState).silenceTimer ∧
    (handleSpeechEnd 300 (handleSpeechStart 0 initialState)).finalizedTurns =
      (handleSpeechStart 0 initialState).finalizedTurns ∧
    (handleSpeechEnd 300 (handleSpeechStart 0 initialState)).stopInvocations =
      (handleSpeechStart 0 initialState).stopInvocations ∧
    (handleSpeechEnd 300 (handleSpeechStart 0 initialState)).recording =
      (handleSpeechStart 0 initialState).recording ∧
    (runTrace [.speechStart 0, .speechEnd 300] 100000).finalizedTurns = 0 :=
  short_segment_discarded 300 (handleSpeechStart 0 initialState) (by decide)

/-- Claim C4: when renewed speech activity arrives before the silence threshold
has elapsed after a valid speech end, the pending silence timer is cleared, no
turn completion fires for that pause, and the detector is back in the speaking
state with the recording still running. -/
theorem renewed_speech_cancels_completion (t1 t2 : ℕ) (s : AgentState)
    (hvalid : VAD_CONFIG.minSpeechDuration ≤ speechDurationAt t1 s)
    (hearly : t2 < t1 + VAD_CONFIG.silenceThreshold) :
    (stepEvent (handleSpeechEnd t1 s) (.speechStart t2)).silenceTimer = none ∧
    (stepEvent (handleSpeechEnd t1 s) (.speechStart t2)).finalizedTurns =
      s.finalizedTurns ∧
    (stepEvent (handleSpeechEnd t1 s) (.speechStart t2)).stopInvocations =
      s.stopInvocations ∧
    (stepEvent (handleSpeechEnd t1 s) (.speechStart t2)).isSpeaking = true ∧
    (stepEvent (handleSpeechEnd t1 s) (.speechStart t2)).recording = true := by
  have hd : ¬ speechDurationAt t1 s < VAD_CONFIG.minSpeechDuration := by omega
  have hfire : ¬ t1 + VAD_CONFIG.silenceThreshold ≤ t2 := by omega
  simp [stepEvent, handleSpeechEnd, hd, fireDue, hfire, handleSpeechStart]

/-- Claim C4 witness: a valid 700 ms segment ending at t = 700 whose pause is
interrupted by renewed speech at t = 1500, well before the 3200 ms deadline. -/
theorem renewed_speech_cancels_completion_witness :
    (stepEvent (handleSpeechEnd 700 (handleSpeechStart 0 initialState))
        (.speechStart 1500)).silenceTimer = none ∧
    (stepEvent (handleSpeechEnd 700 (handleSpeechStart 0 initialState))
        (.speechStart 1500)).finalizedTurns =
      (handleSpeechStart 0 initialState).finalizedTurns ∧
    (stepEvent (handleSpeechEnd 700 (handleSpeechStart 0 initialState))
        (.speechStart 1500)).stopInvocations =
      (handleSpeechStart 0 initialState).stopInvocations ∧
    (stepEvent (handleSpeechEnd 700 (handleSpeechStart 0 initialState))
        (.speechStart 1500)).isSpeaking = true ∧
    (stepEvent (handleSpeechEnd 700 (handleSpeechStart 0 initialState))
        (.speechStart 1500)).recording = true :=
  renewed_speech_cancels_completion 700 1500 (handleSpeechStart 0 initialState)
    (by decide) (by decide)

end ChainedVAD

namespace MicVadModel

/-- Modelled from the spec: the score-level detector state machine that the
component delegates to the external MicVAD library (the library itself is not
part of this repository; only its configuration and callbacks are).  Following
the spec, the machine moves from silent through speech-candidate to
speech-confirmed only when the activity score stays above the positive
threshold for a minimum run length; a run that breaks off earlier is a misfire.
Here tracking 0 is the silent state and tracking r with r above zero is the
candidate state with r consecutive above-threshold frames. -/
inductive Phase where
  | tracking (run : ℕ)
  | confirmed
deriving DecidableEq

/-- Modelled from the spec: one score frame.  From a tracking state, an
above-threshold score either completes the minimum run (confirming speech and
firing speech-start, the returned flag) or extends the candidate run; a
below-threshold score resets the run.  From confirmed, a score under the
negative threshold returns to silent. -/
def stepScore (cfg : ChainedVAD.VadConfig) (minRun : ℕ) (p : Phase) (score : ℚ) :
    Phase × Bool :=
  match p with
  | .tracking r =>
      if cfg.positiveSpeechThreshold < score then
        if minRun ≤ r + 1 then (.confirmed, true) else (.tracking (r + 1), false)
      else (.tracking 0, false)
  | .confirmed =>
      if score < cfg.negativeSpeechThreshold then (.tracking 0, false)
      else (.confirmed, false)

/-- Fold a whole score sequence through the detector, counting how many
speech-start events fire. -/
def runScores (cfg : ChainedVAD.VadConfig) (minRun : ℕ) :
    Phase → List ℚ → Phase × ℕ
  | p, [] => (p, 0)
  | p, q :: rest =>
      let st := stepScore cfg minRun p q
      let rec2 := runScores cfg minRun st.1 rest
      (rec2.1, (if st.2 then 1 else 0) + rec2.2)

/-- Length of the leading run of strictly above-threshold scores. -/
def leadRun (cfg : ChainedVAD.VadConfig) (l : List ℚ) : ℕ :=
  (l.takeWhile (fun q => decide (cfg.positiveSpeechThreshold < q))).length

lemma leadRun_cons_pos (cfg : ChainedVAD.VadConfig) (q : ℚ) (l : List ℚ)
    (h : cfg.positiveSpeechThreshold < q) :
    leadRun cfg (q :: l) = leadRun cfg l + 1 := by
  simp [leadRun, List.takeWhile, h]

lemma leadRun_cons_neg (cfg : ChainedVAD.VadConfig) (q : ℚ) (l : List ℚ)
    (h : ¬ cfg.positiveSpeechThreshold < q) :
    leadRun cfg (q :: l) = 0 := by
  simp [leadRun, List.takeWhile, h]

/-- Core induction: starting from a tracking state whose accumulated run r plus
the leading above-threshold run of the remaining scores stays below the minimum
run length, and with every suffix of the remaining scores also lacking a
sustained run, the detector never fires speech-start. -/
lemma runScores_no_start (cfg : ChainedVAD.VadConfig) (minRun : ℕ) :
    ∀ (l : List ℚ) (r : ℕ),
      (∀ t ∈ l.tails, leadRun cfg t < minRun) →
      r + leadRun cfg l < minRun →
      (runScores cfg minRun (.tracking r) l).2 = 0 := by
  intro l
  induction l with
  | nil => intro r _ _; simp [runScores]
  | cons q rest ih =>
      intro r htails hrun
      by_cases hq : cfg.positiveSpeechThreshold < q
      · have hlead := leadRun_cons_pos cfg q rest hq
        have hnot : ¬ minRun ≤ r + 1 := by omega
        have hrest : (runScores cfg minRun (.tracking (r + 1)) rest).2 = 0 := by
          refine ih (r + 1) ?_ ?_
          · intro t ht
            exact htails t (by simp [List.tails] at ht ⊢; exact Or.inr ht)
          · omega
        simp [runScores, stepScore, hq, hnot, hrest]
      · have hrest : (runScores cfg minRun (.tracking 0) rest).2 = 0 := by
          refine ih 0 ?_ ?_
          · intro t ht
            exact htails t (by simp [List.tails] at ht ⊢; exact Or.inr ht)
          · have := htails rest (by simp [List.tails])
            omega
        simp [runScores, stepScore, hq, hrest]

/-- Claim C5: for every activity-score sequence in which no suffix starts with
minRun consecutive scores above the positive threshold (the score never stays
above the threshold for the minimum confirmation run length), the detector
fires no speech-start event; and the handleVADMisfire handler of the component
leaves the whole agent state — speaking flag, recorder, timers — unchanged. -/
theorem misfire_suppression (minRun : ℕ) (scores : List ℚ)
    (h : ∀ t ∈ scores.tails, leadRun ChainedVAD.VAD_CONFIG t < minRun) :
    (runScores ChainedVAD.VAD_CONFIG minRun (.tracking 0) scores).2 = 0 ∧
    (∀ s : ChainedVAD.AgentState, ChainedVAD.handleVADMisfire s = s) := by
  refine ⟨?_, fun s => rfl⟩
  refine runScores_no_start ChainedVAD.VAD_CONFIG minRun scores 0 h ?_
  have := h scores (by cases scores <;> simp [List.tails])
  omega

/-- Claim C5 witness: a run length of 3 and a score sequence whose
above-threshold runs have lengths 2 and 1, hence never sustained. -/
theorem misfire_suppression_witness :
    (runScores ChainedVAD.VAD_CONFIG 3 (.tracking 0) [1, 1, 0, 1, 0]).2 = 0 ∧
    ChainedVAD.handleVADMisfire ChainedVAD.initialState =
      ChainedVAD.initialState := by
  have h1 : ChainedVAD.VAD_CONFIG.positiveSpeechThreshold < (1 : ℚ) := by
    norm_num [ChainedVAD.VAD_CONFIG]
  have h0 : ¬ ChainedVAD.VAD_CONFIG.positiveSpeechThreshold < (0 : ℚ) := by
    norm_num [ChainedVAD.VAD_CONFIG]
  have h := misfire_suppression 3 [1, 1, 0, 1, 0] ?_
  · exact ⟨h.1, h.2 ChainedVAD.initialState⟩
  · intro t ht
    fin_cases ht <;>
      simp [leadRun, List.takeWhile, h1, h0]

end MicVadModel

namespace RealtimeWS

/-- Playback and conversation state of the WebSocket realtime agent: the queued
base64 response chunks, the playing flag, the currently playing buffer source
(by identifier), the speaking and responding flags, the transcripts and the
status line. -/
structure PlayerState where
  audioQueue : List String
  isPlaying : Bool
  currentSource : Option ℕ
  isSpeaking : Bool
  isAIResponding : Bool
  userTranscript : String
  aiTranscript : String
  status : String
deriving DecidableEq

/-- stopAudioPlayback: stops and drops the currently playing source (a no-op
when none is playing), clears the whole audio queue, resets the playing and
responding flags and the assistant transcript. -/
def stopAudioPlayback (s : PlayerState) : PlayerState :=
  { s with currentSource := none
         , audioQueue := []
         , isPlaying := false
         , isAIResponding := false
         , aiTranscript := "" }

/-- The speech_started branch of handleServerMessage: marks the user as
speaking, clears the user transcript, sets the status to Listening, and — when
an assistant response is in flight — hard-stops playback. -/
def handleSpeechStarted (s : PlayerState) : PlayerState :=
  let s1 := { s with isSpeaking := true
                   , userTranscript := ""
                   , status := "Listening..." }
  if s.isAIResponding then stopAudioPlayback s1 else s1

/-- queueAudioChunk: appends a response chunk to the queue; playback is kicked
off when nothing is playing yet. -/
def queueAudioChunk (chunk : String) (s : PlayerState) : PlayerState :=
  { s with audioQueue := s.audioQueue ++ [chunk]
         , isPlaying := true
         , isAIResponding := true }

/-- A player with nothing enqueued and nothing playing. -/
def idlePlayer : PlayerState :=
  { audioQueue := [], isPlaying := false, currentSource := none
  , isSpeaking := false, isAIResponding := false
  , userTranscript := "", aiTranscript := ""
  , status := "Ready - start speaking" }

/-- Claim C1: in every responding state, a confirmed user speech-start message
invokes the playback hard-stop: afterwards the response audio queue is empty,
no source is playing, the responding flag is cleared and the status is
Listening — regardless of how many chunks were queued. -/
theorem bargein_hard_stop (s : PlayerState) (h : s.isAIResponding = true) :
    (handleSpeechStarted s).audioQueue = [] ∧
    (handleSpeechStarted s).currentSource = none ∧
    (handleSpeechStarted s).isPlaying = false ∧
    (handleSpeechStarted s).isAIResponding = false ∧
    (handleSpeechStarted s).status = "Listening..." := by
  simp [handleSpeechStarted, stopAudioPlayback, h]

/-- Claim C1 witness: the barge-in property applied to a responding state with
three queued response chunks and a source mid-play, matching the three-chunk
scenario of the spec. -/
theorem bargein_hard_stop_witness :
    (handleSpeechStarted
        (queueAudioChunk "c" (queueAudioChunk "b" (queueAudioChunk "a"
          { idlePlayer with currentSource := some 7 })))).audioQueue = [] ∧
    (handleSpeechStarted
        (queueAudioChunk "c" (queueAudioChunk "b" (queueAudioChunk "a"
          { idlePlayer with currentSource := some 7 })))).currentSource = none ∧
    (handleSpeechStarted
        (queueAudioChunk "c" (queueAudioChunk "b" (queueAudioChunk "a"
          { idlePlayer with currentSource := some 7 })))).isPlaying = false ∧
    (handleSpeechStarted
        (queueAudioChunk "c" (queueAudioChunk "b" (queueAudioChunk "a"
          { idlePlayer with currentSource := some 7 })))).isAIResponding = false ∧
    (handleSpeechStarted
        (queueAudioChunk "c" (queueAudioChunk "b" (queueAudioChunk "a"
          { idlePlayer with currentSource := some 7 })))).status = "Listening..." :=
  bargein_hard_stop
    (queueAudioChunk "c" (queueAudioChunk "b" (queueAudioChunk "a"
      { idlePlayer with currentSource := some 7 }))) rfl

/-- Claim C6: stopAudioPlayback is total and idempotent — on every playback
state, including the idle one with nothing enqueued and nothing playing, a
second call produces no additional state change, and after either call the
queue is empty and the playing flag is false. -/
theorem stop_idempotent :
    (∀ s : PlayerState, stopAudioPlayback (stopAudioPlayback s) =
      stopAudioPlayback s) ∧
    (∀ s : PlayerState, (stopAudioPlayback s).audioQueue = [] ∧
      (stopAudioPlayback s).isPlaying = false) ∧
    stopAudioPlayback idlePlayer =
      { idlePlayer with status := "Ready - start speaking" } := by
  refine ⟨fun s => rfl, fun s => ⟨rfl, rfl⟩, rfl⟩

end RealtimeWS

namespace RealtimeWS

/-- Truncation toward zero, the rounding used when a number is stored into an
Int16Array slot. -/
def ratTrunc (q : ℚ) : ℤ := if q < 0 then ⌈q⌉ else ⌊q⌋

/-- Wrap of an integer into the signed 16-bit range, the final step of the
Int16Array store. -/
def toInt16wrap (n : ℤ) : ℤ := (n + 32768) % 65536 - 32768

/-- The clamping step of the onaudioprocess encoder: s is the input sample
limited to the interval from -1 to 1. -/
def clampSample (x : ℚ) : ℚ := max (-1) (min 1 x)

/-- The scaling step of the encoder: a negative clamped sample is multiplied by
32768, a non-negative one by 32767. -/
def scaledSample (x : ℚ) : ℚ :=
  if clampSample x < 0 then clampSample x * 32768 else clampSample x * 32767

/-- The per-sample float-to-PCM16 conversion of the onaudioprocess handler:
clamp, scale, and store into an Int16Array slot. -/
def pcm16OfSample (x : ℚ) : ℤ := toInt16wrap (ratTrunc (scaledSample x))

lemma clampSample_mem (x : ℚ) : -1 ≤ clampSample x ∧ clampSample x ≤ 1 := by
  unfold clampSample
  constructor
  · exact le_max_left _ _
  · exact max_le (by norm_num) (min_le_left _ _)

lemma toInt16wrap_eq_self (n : ℤ) (h1 : -32768 ≤ n) (h2 : n ≤ 32767) :
    toInt16wrap n = n := by
  unfold toInt16wrap
  rw [Int.emod_eq_of_lt (by omega) (by omega)]
  omega

lemma scaledSample_neg (x : ℚ) (h : clampSample x < 0) :
    scaledSample x = clampSample x * 32768 := by
  unfold scaledSample; rw [if_pos h]

lemma scaledSample_nonneg (x : ℚ) (h : ¬ clampSample x < 0) :
    scaledSample x = clampSample x * 32767 := by
  unfold scaledSample; rw [if_neg h]

lemma ratTrunc_of_neg (q : ℚ) (h : q < 0) : ratTrunc q = ⌈q⌉ := by
  unfold ratTrunc; rw [if_pos h]

lemma ratTrunc_of_nonneg (q : ℚ) (h : ¬ q < 0) : ratTrunc q = ⌊q⌋ := by
  unfold ratTrunc; rw [if_neg h]

lemma ceil_neg32768 : ⌈(-32768 : ℚ)⌉ = -32768 := by
  rw [show (-32768 : ℚ) = ((-32768 : ℤ) : ℚ) by norm_num, Int.ceil_intCast]

lemma floor_32767 : ⌊(32767 : ℚ)⌋ = 32767 := by
  rw [show (32767 : ℚ) = ((32767 : ℤ) : ℚ) by norm_num, Int.floor_intCast]

lemma ratTrunc_scaled_lb (x : ℚ) : -32768 ≤ ratTrunc (scaledSample x) := by
  obtain ⟨hlo, hhi⟩ := clampSample_mem x
  by_cases hneg : clampSample x < 0
  · have hs := scaledSample_neg x hneg
    have hq : (-32768 : ℚ) ≤ scaledSample x := by rw [hs]; nlinarith
    have hql : scaledSample x < 0 := by rw [hs]; nlinarith
    rw [ratTrunc_of_neg _ hql]
    calc (-32768 : ℤ) = ⌈(-32768 : ℚ)⌉ := ceil_neg32768.symm
      _ ≤ ⌈scaledSample x⌉ := Int.ceil_le_ceil hq
  · have hs := scaledSample_nonneg x hneg
    have hq : (0 : ℚ) ≤ scaledSample x := by rw [hs]; nlinarith
    have hql : ¬ scaledSample x < 0 := by linarith
    rw [ratTrunc_of_nonneg _ hql]
    have h0 : (0 : ℤ) ≤ ⌊scaledSample x⌋ := Int.le_floor.mpr (by exact_mod_cast hq)
    omega

lemma ratTrunc_scaled_ub (x : ℚ) : ratTrunc (scaledSample x) ≤ 32767 := by
  obtain ⟨hlo, hhi⟩ := clampSample_mem x
  by_cases hneg : clampSample x < 0
  · have hs := scaledSample_neg x hneg
    have hql : scaledSample x < 0 := by rw [hs]; nlinarith
    rw [ratTrunc_of_neg _ hql]
    have h0 : ⌈scaledSample x⌉ ≤ 0 :=
      Int.ceil_le.mpr (by exact_mod_cast le_of_lt hql)
    omega
  · have hs := scaledSample_nonneg x hneg
    have hq : scaledSample x ≤ 32767 := by rw [hs]; nlinarith
    have hql : ¬ scaledSample x < 0 := by rw [hs]; nlinarith
    rw [ratTrunc_of_nonneg _ hql]
    calc ⌊scaledSample x⌋ ≤ ⌊(32767 : ℚ)⌋ := Int.floor_le_floor hq
      _ = 32767 := floor_32767

/-- Claim C10: the float-to-PCM16 conversion is total and never overflows —
every sample is first clamped to the unit interval, negatives are scaled by
32768 and non-negatives by 32767, the resulting value lies in the signed
16-bit range so the Int16Array wrap is the identity, and inputs outside the
unit interval map to the same output as the nearest bound. -/
theorem pcm16_total_no_overflow (x : ℚ) :
    -32768 ≤ pcm16OfSample x ∧
    pcm16OfSample x ≤ 32767 ∧
    pcm16OfSample x = ratTrunc (scaledSample x) ∧
    (x ≤ -1 → pcm16OfSample x = -32768) ∧
    (1 ≤ x → pcm16OfSample x = 32767) := by
  have hlb := ratTrunc_scaled_lb x
  have hub := ratTrunc_scaled_ub x
  have hid : pcm16OfSample x = ratTrunc (scaledSample x) :=
    toInt16wrap_eq_self _ hlb hub
  refine ⟨by omega, by omega, hid, ?_, ?_⟩
  · intro hx
    have hc : clampSample x = -1 := by
      unfold clampSample
      have hmx : min 1 x ≤ -1 := le_trans (min_le_right _ _) hx
      rw [max_eq_left hmx]
    have hneg : clampSample x < 0 := by rw [hc]; norm_num
    have hs : scaledSample x = -32768 := by
      rw [scaledSample_neg x hneg, hc]; norm_num
    rw [hid, hs, ratTrunc_of_neg _ (by norm_num), ceil_neg32768]
  · intro hx
    have hc : clampSample x = 1 := by
      unfold clampSample
      rw [min_eq_left hx, max_eq_right (by norm_num)]
    have hnneg : ¬ clampSample x < 0 := by rw [hc]; norm_num
    have hs : scaledSample x = 32767 := by
      rw [scaledSample_nonneg x hnneg, hc]; norm_num
    rw [hid, hs, ratTrunc_of_nonneg _ (by norm_num), floor_32767]

/-- Claim C10 witness: out-of-range samples at -3 and 5/2 map to the outputs of
the bounds, and an in-range sample stays within the 16-bit range. -/
theorem pcm16_total_no_overflow_witness :
    pcm16OfSample (-3) = -32768 ∧ pcm16OfSample (5/2) = 32767 ∧
    -32768 ≤ pcm16OfSample (1/3) ∧ pcm16OfSample (1/3) ≤ 32767 :=
  ⟨(pcm16_total_no_overflow (-3)).2.2.2.1 (by norm_num),
   (pcm16_total_no_overflow (5/2)).2.2.2.2 (by norm_num),
   (pcm16_total_no_overflow (1/3)).1,
   (pcm16_total_no_overflow (1/3)).2.1⟩

end RealtimeWS

namespace RealtimeVAD

/-- sendAudioChunkToServer, buffer handling: when the accumulated chunk list is
empty nothing is sent and the buffer is untouched; otherwise all chunks are
combined into one blob in accumulation order and the buffer is cleared. -/
def sendAudioChunkToServer (buffer : List ℕ) : Option (List ℕ) × List ℕ :=
  if buffer.isEmpty then (none, buffer) else (some buffer, [])

/-- The interval loop of startAudioStreaming: at every tick the recorder is
stopped, its onstop handler flushes the chunks accumulated since the previous
flush, and recording restarts.  The input is the list of chunks captured in
each tick period; the output is the list of dispatched blobs. -/
def runPipeline : List (List ℕ) → List ℕ → List (List ℕ)
  | [], _ => []
  | c :: rest, buffer =>
      match sendAudioChunkToServer (buffer ++ c) with
      | (none, b) => runPipeline rest b
      | (some blob, _) => blob :: runPipeline rest []

/-- The body of the POST to the realtime-vad audio endpoint: a session id, the
base64 audio, and the commit flag — it carries no sequence number. -/
structure AudioRequest where
  sessionId : String
  audio : List ℕ
  commit : Bool
deriving DecidableEq

/-- The requests dispatched by the pipeline for a capture schedule. -/
def dispatchedRequests (sid : String) (captures : List (List ℕ)) :
    List AudioRequest :=
  (runPipeline captures []).map (fun blob => ⟨sid, blob, false⟩)

/-- Environment model of the HTTP sends: each dispatched request leaves at its
dispatch time and reaches the server after its own network latency. -/
def arrivalTimes (dispatchTimes latencies : List ℕ) : List ℕ :=
  List.zipWith (fun a b => a + b) dispatchTimes latencies

/-- Insert an (arrival, capture-index) pair into a list sorted by arrival. -/
def insertByArrival (p : ℕ × ℕ) : List (ℕ × ℕ) → List (ℕ × ℕ)
  | [] => [p]
  | q :: rest =>
      if p.1 ≤ q.1 then p :: q :: rest else q :: insertByArrival p rest

/-- Sort (arrival, capture-index) pairs by arrival time. -/
def sortByArrival : List (ℕ × ℕ) → List (ℕ × ℕ)
  | [] => []
  | p :: rest => insertByArrival p (sortByArrival rest)

/-- The capture indices of the dispatched requests in the order in which they
reach the server. -/
def deliveredCaptureOrder (dispatchTimes latencies : List ℕ) : List ℕ :=
  (sortByArrival ((arrivalTimes dispatchTimes latencies).zip
    (List.range dispatchTimes.length))).map Prod.snd

/-- Claim C7 counterexample: two blobs are dispatched in capture order at the
1000 ms and 2000 ms ticks, but with send latencies of 1500 ms and 100 ms the
second blob reaches the server first — delivery order is not the strictly
increasing capture order, and the request body carries no sequence number. -/
theorem chunk_reordering_counterexample :
    runPipeline [[0], [1]] [] = [[0], [1]] ∧
    dispatchedRequests "sid" [[0], [1]] =
      [⟨"sid", [0], false⟩, ⟨"sid", [1], false⟩] ∧
    deliveredCaptureOrder [1000, 2000] [1500, 100] = [1, 0] ∧
    [1, 0] ≠ [0, 1] := by
  refine ⟨by decide, by decide, by decide, by decide⟩

/-- Claim C7 (amended): on the client side the pipeline dispatches the captured
chunks in capture order and consumes each chunk exactly once — the
concatenation of all dispatched blobs equals the concatenation of all captured
chunk lists. -/
theorem dispatch_preserves_capture_order (captures : List (List ℕ)) :
    (runPipeline captures []).flatten = captures.flatten := by
  induction captures with
  | nil => simp [runPipeline]
  | cons c rest ih =>
      by_cases hc : c.isEmpty
      · have hce : c = [] := List.isEmpty_iff.mp hc
        simp [runPipeline, sendAudioChunkToServer, hce, ih]
      · simp [runPipeline, sendAudioChunkToServer, hc, ih]

end RealtimeVAD

namespace RealtimeVAD

/-- Possible outcomes of the POST carrying one audio blob. -/
inductive SendOutcome where
  | ok
  | httpError (status : ℕ)
  | networkError
deriving DecidableEq

/-- Observable effect of one sendAudioChunkToServer call: the buffer after the
call, the blob the server received (none on failure), whether a warning or an
error was logged, how many retries were attempted with which backoff delays,
and whether the session was torn down. -/
structure SendEffect where
  buffer : List ℕ
  delivered : Option (List ℕ)
  loggedFailure : Bool
  retriesAttempted : ℕ
  backoffDelaysMs : List ℕ
  sessionEnded : Bool
deriving DecidableEq

/-- The error path of sendAudioChunkToServer: the chunk buffer is cleared
before the fetch; a non-OK response is logged with a warning and the function
returns; a thrown network error is logged by the catch block.  In every case
the call performs no retry, schedules no backoff, and leaves the session
running. -/
def sendChunkOutcome (buffer : List ℕ) (outcome : SendOutcome) : SendEffect :=
  if buffer.isEmpty then
    { buffer := buffer, delivered := none, loggedFailure := false
    , retriesAttempted := 0, backoffDelaysMs := [], sessionEnded := false }
  else
    match outcome with
    | .ok =>
        { buffer := [], delivered := some buffer, loggedFailure := false
        , retriesAttempted := 0, backoffDelaysMs := [], sessionEnded := false }
    | .httpError _ =>
        { buffer := [], delivered := none, loggedFailure := true
        , retriesAttempted := 0, backoffDelaysMs := [], sessionEnded := false }
    | .networkError =>
        { buffer := [], delivered := none, loggedFailure := true
        , retriesAttempted := 0, backoffDelaysMs := [], sessionEnded := false }

/-- Claim C8: evaluation of the send path at the failing input — a one-chunk
buffer whose POST comes back with HTTP status 500.  The code logs the failure
and drops the chunk: zero retries, no backoff delays, the blob is never
delivered, the buffer stays cleared, and the session is not ended.  The same
holds for a thrown network error. -/
theorem send_failure_drops_chunk_without_retry :
    (sendChunkOutcome [42] (.httpError 500)).retriesAttempted = 0 ∧
    (sendChunkOutcome [42] (.httpError 500)).backoffDelaysMs = [] ∧
    (sendChunkOutcome [42] (.httpError 500)).delivered = none ∧
    (sendChunkOutcome [42] (.httpError 500)).buffer = [] ∧
    (sendChunkOutcome [42] (.httpError 500)).sessionEnded = false ∧
    (sendChunkOutcome [42] .networkError).retriesAttempted = 0 ∧
    (sendChunkOutcome [42] .networkError).delivered = none := by
  decide

/-- Resource-holding state of the realtime-VAD agent: whether the microphone
stream is held with live tracks, the session id, the VAD-session and listening
flags, and the status line. -/
structure ResourceState where
  micHeld : Bool
  sessionActive : Bool
  vadSessionActive : Bool
  listening : Bool
  status : String
deriving DecidableEq

/-- State before any conversation. -/
def initialResources : ResourceState :=
  { micHeld := false, sessionActive := false, vadSessionActive := false
  , listening := false, status := "Ready to start conversation" }

/-- startConversation: acquires the microphone stream and creates the session,
then starts the realtime VAD session.  When that step fails, the catch handler
only reports the failure status — the already-acquired stream is not
released. -/
def startConversation (vadStartOk : Bool) (s : ResourceState) : ResourceState :=
  let s1 := { s with micHeld := true, sessionActive := true }
  if vadStartOk then
    { s1 with vadSessionActive := true, listening := true
            , status := "Listening... (server VAD)" }
  else
    { s1 with status := "Realtime VAD initialization failed" }

/-- stopConversation: clears the intervals, stops the recorder, stops every
track of the stream and clears the handle, and resets all session state. -/
def stopConversation (s : ResourceState) : ResourceState :=
  { s with micHeld := false, sessionActive := false, vadSessionActive := false
         , listening := false, status := "Conversation ended" }

/-- Claim C9 counterexample: starting a conversation whose realtime-VAD setup
fails after the microphone was acquired leaves the system holding the device —
the stream is still held and no listening session is running, contradicting
release on every exit path. -/
theorem mic_leak_on_failed_start :
    (startConversation false initialResources).micHeld = true ∧
    (startConversation false initialResources).listening = false ∧
    (startConversation false initialResources).vadSessionActive = false ∧
    (startConversation false initialResources).status =
      "Realtime VAD initialization failed" := by
  decide

/-- Claim C9 (amended): on the explicit stop path the microphone is always
released — stopConversation stops all tracks and clears the handle from every
state, also after a failed or a successful start — while the startup-failure
path leaves the acquired stream held. -/
theorem mic_release_on_stop (s : ResourceState) (ok : Bool) :
    (stopConversation s).micHeld = false ∧
    (stopConversation (startConversation ok s)).micHeld = false ∧
    (startConversation false s).micHeld = true := by
  refine ⟨rfl, rfl, ?_⟩
  simp [startConversation]

end RealtimeVAD
